import Mathlib

/-!
Shallow embedding of the event-aggregation loop of gomobile-gcal-summary
(main.go, the loop over `events.Items` and the summary lines).

The program walks the fetched events in order; for each event whose summary
starts with the prefix "SolarWinds" it parses the RFC3339 start and end
timestamps (a parse error is printed and the zero `time.Time` value is used,
since the loop body does not `continue` on error), decides week/month window
membership by strict comparisons on Unix seconds, accumulates the duration
`endTime.Sub(startTime).Hours()` into the week and month totals, and counts a
work day whenever the day-of-month of the start time differs from the
last-seen day-of-month.  Finally `weekTargetTotal = float64(workDaysInWeek*8)`
and `monthTargetTotal = float64(workDaysInMonth*8)`.

Modelling choices:
  * a Go `time.Time`, as this program observes it, is its Unix seconds, its
    nanosecond-of-second, and its zone offset (RFC3339 parsing yields a fixed
    zone taken from the string; `Day()` is computed in that zone);
  * the running totals idealize `float64` arithmetic as exact ℚ (benign for
    the frame, counter and window claims, whose conclusions never depend on
    rounding); the `binary64` rounding of `Duration.Hours()` and of the
    accumulation itself, which the numerical claim is about, is modelled
    faithfully by the `F64` dyadic-float operations further down;
  * `time.Duration` is an `int64` of nanoseconds and `Sub` saturates at the
    bounds, as in the Go time package;
  * a timestamp whose parse fails is `none`; the loop then prints the error
    (counted in `parseErrs`) and uses Go zero time, exactly as the source does;
  * `Day()` is the standard civil-from-days calendar computation on
    `sec + offset`, floor-divided into days.
-/

/-- A Go `time.Time` as observed by this program: Unix seconds, the
nanosecond part, and the zone offset in seconds. -/
structure GoTime where
  sec : Int
  nsec : Int
  offset : Int
deriving DecidableEq

/-- The zero `time.Time` (January 1, year 1, 00:00:00 UTC), the value
`time.Parse` returns alongside an error. -/
def zeroTime : GoTime := { sec := -62135596800, nsec := 0, offset := 0 }

/-- Day-of-month of a time, in its own zone: civil-from-days on the
floor-divided day number, as the Go time package computes `Day()`. -/
def dayOfMonth (t : GoTime) : Int :=
  let z := (t.sec + t.offset).fdiv 86400 + 719468
  let era := if 0 ≤ z then z / 146097 else (z - 146096) / 146097
  let doe := z - era * 146097
  let yoe := (doe - doe / 1460 + doe / 36524 - doe / 146096) / 365
  let doy := doe - (365 * yoe + yoe / 4 - yoe / 100)
  let mp := (5 * doy + 2) / 153
  doy - (153 * mp + 2) / 5 + 1

/-- `time.maxDuration`: the largest `int64` count of nanoseconds. -/
def maxDuration : Int := 9223372036854775807

/-- `time.minDuration`: the smallest `int64` count of nanoseconds. -/
def minDuration : Int := -9223372036854775808

/-- `t.Sub(u)` in nanoseconds: the exact difference, saturated to the
`int64` `time.Duration` range as the Go time package does. -/
def goSub (t u : GoTime) : Int :=
  let d := (t.sec - u.sec) * 1000000000 + (t.nsec - u.nsec)
  if d < minDuration then minDuration
  else if maxDuration < d then maxDuration
  else d

/-- `Duration.Hours()`: nanoseconds to fractional hours, modelled exactly
in ℚ (the source computes `hour + nsec/3.6e12` in `float64`). -/
def hoursOf (d : Int) : ℚ := (d : ℚ) / 3600000000000

/-- A fetched calendar event: its summary and the results of parsing its
RFC3339 start and end timestamps (`none` when the parse fails). -/
structure Event where
  summary : String
  start : Option GoTime
  end_ : Option GoTime

/-- The report window: Unix seconds of weekBegin/weekEnd and
monthBegin/monthEnd, as compared via `.Unix()` in the source. -/
structure Window where
  weekBegin : Int
  weekEnd : Int
  monthBegin : Int
  monthEnd : Int

/-- The title filter string of the loop. -/
def solarWinds : String := "SolarWinds"

/-- The guard strings.HasPrefix(ev.Summary, "SolarWinds") of the loop,
as a check on the character sequences of the two strings. -/
def matchesTitle (s : String) : Bool := List.isPrefixOf solarWinds.data s.data

/-- The loop state: the last-seen day-of-month (`today`), the dead
`lastStartTime`/`lastEndTime` trackers, the two totals and work-day
counters, and counts of parse-error lines and per-event output lines. -/
structure AggState where
  today : Int
  lastStartTime : GoTime
  lastEndTime : GoTime
  weekTotal : ℚ
  workDaysInWeek : Nat
  monthTotal : ℚ
  workDaysInMonth : Nat
  parseErrs : Nat
  eventLines : Nat
deriving DecidableEq

/-- The state before the loop: `today = 0`, zero totals and counters. -/
def initState : AggState :=
  { today := 0, lastStartTime := zeroTime, lastEndTime := zeroTime,
    weekTotal := 0, workDaysInWeek := 0, monthTotal := 0,
    workDaysInMonth := 0, parseErrs := 0, eventLines := 0 }

/-- `startTime.Unix() > lo && endTime.Unix() < hi`: the strict window
membership test of the source. -/
def inWindow (lo hi : Int) (startTime endTime : GoTime) : Bool :=
  decide (lo < startTime.sec) && decide (endTime.sec < hi)

/-- One iteration of the event loop (main.go lines 164–218). -/
def processEvent (w : Window) (s : AggState) (ev : Event) : AggState :=
  if matchesTitle ev.summary = false then s
  else
    let startTime := ev.start.getD zeroTime
    let endTime := ev.end_.getD zeroTime
    let errs := (if ev.start = none then 1 else 0)
              + (if ev.end_ = none then 1 else 0)
    let inWeek := inWindow w.weekBegin w.weekEnd startTime endTime
    let inMonth := inWindow w.monthBegin w.monthEnd startTime endTime
    let duration := hoursOf (goSub endTime startTime)
    let s1 :=
      if dayOfMonth startTime ≠ s.today then
        { s with today := dayOfMonth startTime,
                 lastStartTime := startTime,
                 lastEndTime := endTime,
                 workDaysInWeek := s.workDaysInWeek + (if inWeek then 1 else 0),
                 workDaysInMonth := s.workDaysInMonth + (if inMonth then 1 else 0) }
      else s
    { s1 with weekTotal := s1.weekTotal + (if inWeek then duration else 0),
              monthTotal := s1.monthTotal + (if inMonth then duration else 0),
              parseErrs := s1.parseErrs + errs,
              eventLines := s1.eventLines + 1 }

/-- The whole aggregation: fold the loop body over the fetched events
(the per-calendar streams concatenated in iteration order). -/
def aggregate (w : Window) (events : List Event) : AggState :=
  events.foldl (processEvent w) initState

/-- The figures the program reports: the two totals, the two work-day
counters, and the derived targets (main.go lines 224–225). -/
structure AggregateResult where
  weekTotal : ℚ
  monthTotal : ℚ
  workDaysInWeek : Nat
  workDaysInMonth : Nat
  weekTarget : ℚ
  monthTarget : ℚ

/-- Run the aggregation and derive the targets exactly as the source:
`weekTargetTotal := float64(workDaysInWeek * 8)` and likewise for the
month. -/
def runAggregate (w : Window) (events : List Event) : AggregateResult :=
  let s := aggregate w events
  { weekTotal := s.weekTotal, monthTotal := s.monthTotal,
    workDaysInWeek := s.workDaysInWeek, workDaysInMonth := s.workDaysInMonth,
    weekTarget := ((s.workDaysInWeek * 8 : Nat) : ℚ),
    monthTarget := ((s.workDaysInMonth * 8 : Nat) : ℚ) }

/-! Concrete data for the worked example of the spec: the week window is
Monday 2026-01-05 00:00:00 UTC through Sunday 2026-01-11 23:59:59 UTC and
the month window is January 2026, all in UTC. -/

/-- The example report window (week of 2026-01-05, month of January 2026,
UTC). -/
def exWindow : Window :=
  { weekBegin := 1767571200, weekEnd := 1768175999,
    monthBegin := 1767225600, monthEnd := 1769903999 }

/-- A UTC instant with whole seconds. -/
def utc (s : Int) : GoTime := { sec := s, nsec := 0, offset := 0 }

/-- Monday 09:00–09:30: the standup of the worked example. -/
def evStandup : Event :=
  { summary := "SolarWinds: standup",
    start := some (utc 1767603600), end_ := some (utc 1767605400) }

/-- Monday 14:00–15:00: the review of the worked example. -/
def evReview : Event :=
  { summary := "SolarWinds: review",
    start := some (utc 1767621600), end_ := some (utc 1767625200) }

/-- Monday 12:00–13:00: the non-matching lunch of the worked example. -/
def evLunch : Event :=
  { summary := "Lunch",
    start := some (utc 1767614400), end_ := some (utc 1767618000) }

/-- A matching event whose end timestamp fails to parse (for instance an
all-day event, whose End.DateTime is empty): start Monday 09:00 UTC. -/
def evNoEnd : Event :=
  { summary := "SolarWinds: broken",
    start := some (utc 1767603600), end_ := none }

/-- A matching event with both timestamps unparseable (a true all-day
event: both DateTime fields empty). -/
def evAllday : Event :=
  { summary := "SolarWinds: allday", start := none, end_ := none }

/-- A matching event of 2025-12-09 10:00–11:00 UTC: fully before both the
week window and the month window, with day-of-month 9. -/
def evDecOld : Event :=
  { summary := "SolarWinds: old standup",
    start := some (utc 1765274400), end_ := some (utc 1765278000) }

/-- A matching event of 2026-01-09 10:00–11:00 UTC: inside both windows,
with day-of-month 9. -/
def evJan9 : Event :=
  { summary := "SolarWinds: friday",
    start := some (utc 1767952800), end_ := some (utc 1767956400) }

/-- A matching 90-minute event, Monday 09:00–10:30 UTC, inside both
windows. -/
def evNinety : Event :=
  { summary := "SolarWinds: workshop",
    start := some (utc 1767603600), end_ := some (utc 1767609000) }

/-- A matching event whose start sits exactly on weekBegin
(Monday 00:00:00 UTC), end one hour later. -/
def evOnBoundary : Event :=
  { summary := "SolarWinds: midnight",
    start := some (utc 1767571200), end_ := some (utc 1767574800) }

/-- A matching event of one hour plus one nanosecond, Monday 09:00:00 to
10:00:00.000000001 UTC (RFC3339 allows fractional seconds), inside both
windows. -/
def evOneNs : Event :=
  { summary := "SolarWinds: precise",
    start := some (utc 1767603600),
    end_ := some { sec := 1767607200, nsec := 1, offset := 0 } }

/-! A faithful model of IEEE-754 binary64 (`float64`) for the duration
arithmetic: `Duration.Hours()` computes `float64(hour) +
float64(nsec)/(60*60*1e9)` and the totals accumulate with `+=`, all of
which round to nearest, ties to even, at 53 significand bits.  A value is
represented as a dyadic rational `m * 2^e`; the exponent is unbounded,
which agrees with binary64 on every magnitude arising here (all lie well
inside the normal range, so no overflow or subnormal rounding occurs). -/

/-- Largest `k` with `2^k ≤ n` (0 for `n = 0`); valid for `n < 2^256`,
far above every quantity in this development. -/
def floorLog2 (n : Nat) : Nat :=
  (List.range 256).foldl (fun acc k => if 2 ^ k ≤ n then k else acc) 0

/-- Whether `2^c ≤ a / b`, by cross-multiplication. -/
def powCmpLe (b a : Nat) (c : Int) : Bool :=
  if 0 ≤ c then decide (b * 2 ^ c.toNat ≤ a) else decide (b ≤ a * 2 ^ (-c).toNat)

/-- Floor of the base-2 logarithm of `a / b` for `a, b ≥ 1`: the
difference of the integer logs is off by at most one, corrected by a
single comparison. -/
def findExp (a b : Nat) : Int :=
  let c : Int := (floorLog2 a : Int) - (floorLog2 b : Int)
  if powCmpLe b a c then c else c - 1

/-- A binary64 value: the dyadic rational `m * 2^e`, with `|m| < 2^53`
for results of rounding. -/
structure F64 where
  m : Int
  e : Int
deriving DecidableEq

/-- Round the rational `n / d` (`d > 0`) to nearest binary64, ties to
even: normalize the magnitude into `[2^52, 2^53)`, then round the scaled
quotient half-to-even, renormalizing when rounding carries into `2^53`. -/
def roundF64 (n d : Int) : F64 :=
  if n = 0 then { m := 0, e := 0 } else
    let s : Int := if n < 0 then -1 else 1
    let a := n.natAbs
    let b := d.natAbs
    let e := findExp a b - 52
    let n1 := if 0 ≤ e then a else a * 2 ^ (-e).toNat
    let d1 := if 0 ≤ e then b * 2 ^ e.toNat else b
    let q := n1 / d1
    let r := n1 % d1
    let m0 := if 2 * r < d1 then q
              else if d1 < 2 * r then q + 1
              else if q % 2 = 0 then q else q + 1
    if m0 = 2 ^ 53 then { m := s * 2 ^ 52, e := e + 1 }
    else { m := s * (m0 : Int), e := e }

/-- binary64 addition: the correctly rounded exact sum. -/
def fl64add (x y : F64) : F64 :=
  let e := min x.e y.e
  let n := x.m * 2 ^ (x.e - e).toNat + y.m * 2 ^ (y.e - e).toNat
  if 0 ≤ e then roundF64 (n * 2 ^ e.toNat) 1 else roundF64 n (2 ^ (-e).toNat)

/-- int64 to binary64 conversion: correctly rounded. -/
def f64ofInt (n : Int) : F64 := roundF64 n 1

/-- binary64 division by an exactly representable positive integer
(here always 3600000000000 = 60*60*1e9 < 2^53): the correctly rounded
exact quotient. -/
def f64divByPos (x : F64) (c : Int) : F64 :=
  if 0 ≤ x.e then roundF64 (x.m * 2 ^ x.e.toNat) c
  else roundF64 x.m (c * 2 ^ (-x.e).toNat)

/-- `Duration.Hours()` in binary64, exactly as the Go time package
computes it: `hour := d / Hour` and `nsec := d % Hour` in truncated
int64 arithmetic, then `float64(hour) + float64(nsec)/(60*60*1e9)` with
each operation correctly rounded.  `|nsec| < 3.6e12 < 2^53`, so
`float64(nsec)` is exact and the division rounds the exact ratio. -/
def goHours64 (d : Int) : F64 :=
  fl64add (f64ofInt (d.tdiv 3600000000000))
    (f64divByPos (f64ofInt (d.tmod 3600000000000)) 3600000000000)

/-- The exact rational value of a binary64 number. -/
def toQ (f : F64) : ℚ := (f.m : ℚ) * (2 : ℚ) ^ f.e

/-- Decidable test that a binary64 value equals the rational `n / d`,
by cross-multiplication in the integers. -/
def f64val (f : F64) (n d : Int) : Bool :=
  if 0 ≤ f.e then decide (f.m * 2 ^ f.e.toNat * d = n)
  else decide (f.m * d = n * 2 ^ (-f.e).toNat)

/-! Helper lemmas about the strict window test. -/

/-- The window test holds exactly when the start is strictly after the
lower bound and the end strictly before the upper bound. -/
theorem inWindow_true_iff (lo hi : Int) (st en : GoTime) :
    inWindow lo hi st en = true ↔ lo < st.sec ∧ en.sec < hi := by
  simp [inWindow]

/-- The window test fails when the start is at or before the lower
bound. -/
theorem inWindow_false_of_start_le (lo hi : Int) (st en : GoTime)
    (h : st.sec ≤ lo) : inWindow lo hi st en = false := by
  simp [inWindow]
  omega

/-- The window test fails when the end is at or after the upper bound. -/
theorem inWindow_false_of_le_end (lo hi : Int) (st en : GoTime)
    (h : hi ≤ en.sec) : inWindow lo hi st en = false := by
  simp [inWindow]
  omega

/-- For an event with start at or before its end, the window test fails
whenever start or end sits exactly on either bound of the window. -/
theorem inWindow_false_of_boundary (lo hi : Int) (st en : GoTime)
    (hwf : st.sec ≤ en.sec)
    (h : st.sec = lo ∨ en.sec = hi ∨ st.sec = hi ∨ en.sec = lo) :
    inWindow lo hi st en = false := by
  simp [inWindow]
  omega

/-- The window test fails for an event lying fully outside the window
(start at or before its end, and the event range disjoint from the
window range). -/
theorem inWindow_false_of_outside (lo hi : Int) (st en : GoTime)
    (hwf : st.sec ≤ en.sec) (h : en.sec ≤ lo ∨ hi ≤ st.sec) :
    inWindow lo hi st en = false := by
  simp [inWindow]
  omega

/-- The decidable value test agrees with the exact rational value of a
binary64 number. -/
theorem f64val_iff (f : F64) (n d : Int) (hd : 0 < d) :
    f64val f n d = true ↔ toQ f = (n : ℚ) / (d : ℚ) := by
  have hd0 : (d : ℚ) ≠ 0 := by exact_mod_cast hd.ne'
  unfold f64val toQ
  split
  · rename_i h
    rw [decide_eq_true_eq, eq_div_iff hd0]
    rw [show (2 : ℚ) ^ f.e = ((2 : ℚ) ^ f.e.toNat) by
      rw [← zpow_natCast, Int.toNat_of_nonneg h]]
    constructor
    · intro hh; exact_mod_cast hh
    · intro hh; exact_mod_cast hh
  · rename_i h
    rw [decide_eq_true_eq]
    have hke : f.e = -((-f.e).toNat : Int) := by omega
    have h2 : (2 : ℚ) ^ f.e = ((2 : ℚ) ^ ((-f.e).toNat : Nat))⁻¹ := by
      rw [← zpow_natCast, ← zpow_neg, ← hke]
    rw [h2, ← div_eq_mul_inv, div_eq_div_iff (by positivity) hd0]
    constructor
    · intro hh; exact_mod_cast hh
    · intro hh; exact_mod_cast hh

/-! The claim theorems. -/

/-- C4: window membership is the strict test (start strictly after the
window begin and end strictly before the window end, for the week and
analogously for the month), so a well-formed matching event whose start
or end sits exactly on a boundary of the week window is excluded from the
week total and the week work-day count. -/
theorem C4_strict_bounds (w : Window) (s : AggState) (ev : Event)
    (st en : GoTime)
    (hm : matchesTitle ev.summary = true)
    (hs : ev.start = some st) (he : ev.end_ = some en)
    (hwf : st.sec ≤ en.sec)
    (hb : st.sec = w.weekBegin ∨ en.sec = w.weekEnd ∨
          st.sec = w.weekEnd ∨ en.sec = w.weekBegin) :
    (inWindow w.weekBegin w.weekEnd st en = true ↔
       w.weekBegin < st.sec ∧ en.sec < w.weekEnd) ∧
    (inWindow w.monthBegin w.monthEnd st en = true ↔
       w.monthBegin < st.sec ∧ en.sec < w.monthEnd) ∧
    (processEvent w s ev).weekTotal = s.weekTotal ∧
    (processEvent w s ev).workDaysInWeek = s.workDaysInWeek := by
  have hfw : inWindow w.weekBegin w.weekEnd st en = false :=
    inWindow_false_of_boundary _ _ _ _ hwf hb
  refine ⟨inWindow_true_iff _ _ _ _, inWindow_true_iff _ _ _ _, ?_, ?_⟩ <;>
    · simp only [processEvent, hm, hs, he, Option.getD_some, hfw]
      split
      · simp_all
      · split <;> simp

/-- C6: an event whose title does not start with the SolarWinds filter
string is skipped by the loop guard: the totals, the work-day counters
and the per-event output count are all unchanged, whatever its
timestamps. -/
theorem C6_title_filter (w : Window) (s : AggState) (ev : Event)
    (hm : matchesTitle ev.summary = false) :
    (processEvent w s ev).weekTotal = s.weekTotal ∧
    (processEvent w s ev).monthTotal = s.monthTotal ∧
    (processEvent w s ev).workDaysInWeek = s.workDaysInWeek ∧
    (processEvent w s ev).workDaysInMonth = s.workDaysInMonth ∧
    (processEvent w s ev).eventLines = s.eventLines := by
  simp [processEvent, hm]

/-- C7: the reported targets are exactly eight hours per counted work
day, computed from the final counters of the run. -/
theorem C7_targets (w : Window) (events : List Event) :
    (runAggregate w events).weekTarget =
      ((runAggregate w events).workDaysInWeek : ℚ) * 8 ∧
    (runAggregate w events).monthTarget =
      ((runAggregate w events).workDaysInMonth : ℚ) * 8 := by
  refine ⟨?_, ?_⟩ <;> simp [runAggregate]

/-- C9: the day-transition check compares nothing but day-of-month
integers: a matching event whose start has the day-of-month already held
in the today tracker leaves both work-day counters and the tracker
unchanged, whatever its absolute date (so also across months or between
calendars). -/
theorem C9_day_of_month_only (w : Window) (s : AggState) (ev : Event)
    (st : GoTime)
    (hm : matchesTitle ev.summary = true)
    (hs : ev.start = some st)
    (hd : dayOfMonth st = s.today) :
    (processEvent w s ev).workDaysInWeek = s.workDaysInWeek ∧
    (processEvent w s ev).workDaysInMonth = s.workDaysInMonth ∧
    (processEvent w s ev).today = s.today := by
  simp [processEvent, hm, hs, hd]

/-- C10: a non-matching event is skipped before any timestamp parsing:
the whole loop state, the parse-error log count included, is returned
unchanged, even when both its timestamps would fail to parse. -/
theorem C10_nonmatching_frame (w : Window) (s : AggState) (ev : Event)
    (hm : matchesTitle ev.summary = false) :
    processEvent w s ev = s := by
  simp [processEvent, hm]

/-- C2 (amended): a matching event whose START timestamp fails to parse
is replaced by the Go zero time rather than skipped; since the zero time
precedes any window that begins at or after it, both window tests fail,
so the event contributes nothing to either total and leaves both
work-day counters unchanged, while at least one parse-error line is
printed and the loop carries on.  (An event whose end alone fails to
parse is NOT harmless: see the counterexample.) -/
theorem C2_start_unparseable (w : Window) (s : AggState) (ev : Event)
    (hm : matchesTitle ev.summary = true)
    (hs : ev.start = none)
    (hwb : zeroTime.sec ≤ w.weekBegin)
    (hmb : zeroTime.sec ≤ w.monthBegin) :
    (processEvent w s ev).weekTotal = s.weekTotal ∧
    (processEvent w s ev).monthTotal = s.monthTotal ∧
    (processEvent w s ev).workDaysInWeek = s.workDaysInWeek ∧
    (processEvent w s ev).workDaysInMonth = s.workDaysInMonth ∧
    s.parseErrs < (processEvent w s ev).parseErrs := by
  have hfw : inWindow w.weekBegin w.weekEnd zeroTime (ev.end_.getD zeroTime) = false :=
    inWindow_false_of_start_le _ _ _ _ hwb
  have hfm : inWindow w.monthBegin w.monthEnd zeroTime (ev.end_.getD zeroTime) = false :=
    inWindow_false_of_start_le _ _ _ _ hmb
  refine ⟨?_, ?_, ?_, ?_, ?_⟩ <;>
    · simp only [processEvent, hm, hs, Option.getD_none, hfw, hfm]
      split
      · simp_all
      · split <;> simp

/-- C3 (amended): a well-formed matching event lying fully outside both
windows fails both window tests, so processing it changes neither total
nor either work-day counter; the today tracker, however, is still
updated from its start time, so such an event can change the day counts
obtained for later events (see the counterexample). -/
theorem C3_outside_both (w : Window) (s : AggState) (ev : Event)
    (st en : GoTime)
    (hm : matchesTitle ev.summary = true)
    (hs : ev.start = some st) (he : ev.end_ = some en)
    (hwf : st.sec ≤ en.sec)
    (how : en.sec ≤ w.weekBegin ∨ w.weekEnd ≤ st.sec)
    (hom : en.sec ≤ w.monthBegin ∨ w.monthEnd ≤ st.sec) :
    (processEvent w s ev).weekTotal = s.weekTotal ∧
    (processEvent w s ev).monthTotal = s.monthTotal ∧
    (processEvent w s ev).workDaysInWeek = s.workDaysInWeek ∧
    (processEvent w s ev).workDaysInMonth = s.workDaysInMonth := by
  have hfw : inWindow w.weekBegin w.weekEnd st en = false :=
    inWindow_false_of_outside _ _ _ _ hwf how
  have hfm : inWindow w.monthBegin w.monthEnd st en = false :=
    inWindow_false_of_outside _ _ _ _ hwf hom
  refine ⟨?_, ?_, ?_, ?_⟩ <;>
    · simp only [processEvent, hm, hs, he, Option.getD_some, hfw, hfm]
      split
      · simp_all
      · split <;> simp

/-- C5: two matching events of the same calendar day (hence equal
day-of-month), both inside the week window and supplied in ascending
start order, grow the week work-day counter only once: the second event
adds nothing, and the pair adds one exactly when the day was not already
the one held in the today tracker. -/
theorem C5_same_day_once (w : Window) (s : AggState) (e1 e2 : Event)
    (st1 en1 st2 en2 : GoTime)
    (hm1 : matchesTitle e1.summary = true)
    (hs1 : e1.start = some st1) (he1 : e1.end_ = some en1)
    (hm2 : matchesTitle e2.summary = true)
    (hs2 : e2.start = some st2) (he2 : e2.end_ = some en2)
    (hday : dayOfMonth st2 = dayOfMonth st1)
    (hw1 : inWindow w.weekBegin w.weekEnd st1 en1 = true)
    (hw2 : inWindow w.weekBegin w.weekEnd st2 en2 = true)
    (hord : st1.sec ≤ st2.sec) :
    (processEvent w (processEvent w s e1) e2).workDaysInWeek =
      (processEvent w s e1).workDaysInWeek ∧
    (processEvent w s e1).workDaysInWeek =
      s.workDaysInWeek + (if dayOfMonth st1 = s.today then 0 else 1) := by
  have htoday : (processEvent w s e1).today = dayOfMonth st1 := by
    simp only [processEvent, hm1, hs1, he1, Option.getD_some]
    split
    · simp_all
    · split <;> simp_all
  constructor
  · have hd2 : dayOfMonth st2 = (processEvent w s e1).today := by
      rw [htoday, hday]
    exact (C9_day_of_month_only w (processEvent w s e1) e2 st2 hm2 hs2 hd2).1
  · simp only [processEvent, hm1, hs1, he1, Option.getD_some, hw1]
    split
    · simp_all
    · split <;> simp_all

set_option maxRecDepth 8000 in
/-- C8 (amended): the spec instance that survives binary64 rounding.
The 90-minute event of the spec has a Duration of 5400000000000 ns, and
both the faithful binary64 evaluation of its accumulation into a zero
total and the exact-rational totals of the embedding yield exactly
1.5 hours, since every intermediate value (1, 0.5, 1.5) is dyadic and
exactly representable. -/
theorem C8_ninety_exact :
    inWindow exWindow.weekBegin exWindow.weekEnd (utc 1767603600)
      (utc 1767609000) = true ∧
    goSub (utc 1767609000) (utc 1767603600) = 5400000000000 ∧
    toQ (fl64add (roundF64 0 1) (goHours64 5400000000000)) = 3 / 2 ∧
    (processEvent exWindow initState evNinety).weekTotal = 3 / 2 := by
  have htw : matchesTitle "SolarWinds: workshop" = true := by decide
  refine ⟨by decide, by decide,
    (f64val_iff _ 3 2 (by norm_num)).mp (by decide), ?_⟩
  simp [processEvent, initState, evNinety, exWindow, inWindow, utc, hoursOf,
        goSub, minDuration, maxDuration, dayOfMonth, htw]
  norm_num

/-- A non-matching event with both timestamps unparseable. -/
def evPrivate : Event :=
  { summary := "Private appointment", start := none, end_ := none }

/-- C1 (counterexample): on the worked example of the spec the two
matching events last 0.5 h and 1.0 h, so the code returns a week total
of 1.5 hours, not the 1.0 hour the spec states. -/
theorem C1_counterexample :
    (runAggregate exWindow [evStandup, evReview, evLunch]).weekTotal ≠ 1 := by
  have hst : matchesTitle "SolarWinds: standup" = true := by decide
  have hrv : matchesTitle "SolarWinds: review" = true := by decide
  have hlu : matchesTitle "Lunch" = false := by decide
  simp [runAggregate, aggregate, processEvent, initState, evStandup, evReview,
        evLunch, exWindow, inWindow, utc, hoursOf, goSub, minDuration,
        maxDuration, dayOfMonth, hst, hrv, hlu]

/-- C1 (amended): on the worked example the aggregation returns a week
total of 1.5 hours, one counted work day, and a week target of 8
hours. -/
theorem C1_example_totals :
    (runAggregate exWindow [evStandup, evReview, evLunch]).weekTotal = 3/2 ∧
    (runAggregate exWindow [evStandup, evReview, evLunch]).workDaysInWeek = 1 ∧
    (runAggregate exWindow [evStandup, evReview, evLunch]).weekTarget = 8 := by
  have hst : matchesTitle "SolarWinds: standup" = true := by decide
  have hrv : matchesTitle "SolarWinds: review" = true := by decide
  have hlu : matchesTitle "Lunch" = false := by decide
  refine ⟨?_, by decide, by decide⟩
  simp [runAggregate, aggregate, processEvent, initState, evStandup, evReview,
        evLunch, exWindow, inWindow, utc, hoursOf, goSub, minDuration,
        maxDuration, dayOfMonth, hst, hrv, hlu]
  norm_num

/-- C2 (counterexample): a matching event whose END timestamp fails to
parse is not skipped: with its start inside the week window the zero end
time still passes the strict upper test, so the work-day counter
advances and a huge negative duration lands in the week total. -/
theorem C2_counterexample :
    (processEvent exWindow initState evNoEnd).workDaysInWeek = 1 ∧
    (processEvent exWindow initState evNoEnd).weekTotal ≠ 0 := by
  have hbr : matchesTitle "SolarWinds: broken" = true := by decide
  refine ⟨by decide, ?_⟩
  simp [processEvent, initState, evNoEnd, exWindow, inWindow, utc, zeroTime,
        hoursOf, goSub, minDuration, maxDuration, dayOfMonth, hbr]

/-- C2 (witness): the amended theorem applied to an all-day event (both
timestamps unparseable) in the example window. -/
theorem C2_witness :
    matchesTitle evAllday.summary = true ∧
    evAllday.start = none ∧
    zeroTime.sec ≤ exWindow.weekBegin ∧
    zeroTime.sec ≤ exWindow.monthBegin ∧
    ((processEvent exWindow initState evAllday).weekTotal = initState.weekTotal ∧
     (processEvent exWindow initState evAllday).monthTotal = initState.monthTotal ∧
     (processEvent exWindow initState evAllday).workDaysInWeek = initState.workDaysInWeek ∧
     (processEvent exWindow initState evAllday).workDaysInMonth = initState.workDaysInMonth ∧
     initState.parseErrs < (processEvent exWindow initState evAllday).parseErrs) :=
  ⟨by decide, rfl, by decide, by decide,
   C2_start_unparseable exWindow initState evAllday (by decide) rfl
     (by decide) (by decide)⟩

/-- C3 (counterexample): a matching event fully outside both windows
(2025-12-09) still overwrites the today tracker with its day-of-month 9,
so the later in-window event of 2026-01-09 is no longer counted: the day
count for the rest of the sequence changes from 1 to 0. -/
theorem C3_counterexample :
    (runAggregate exWindow [evDecOld, evJan9]).workDaysInWeek = 0 ∧
    (runAggregate exWindow [evJan9]).workDaysInWeek = 1 := by
  exact ⟨by decide, by decide⟩

/-- C3 (witness): the amended theorem applied to the December event in
the example window, from the initial state. -/
theorem C3_witness :
    matchesTitle evDecOld.summary = true ∧
    (utc 1765274400).sec ≤ (utc 1765278000).sec ∧
    ((utc 1765278000).sec ≤ exWindow.weekBegin ∨
       exWindow.weekEnd ≤ (utc 1765274400).sec) ∧
    ((utc 1765278000).sec ≤ exWindow.monthBegin ∨
       exWindow.monthEnd ≤ (utc 1765274400).sec) ∧
    ((processEvent exWindow initState evDecOld).weekTotal = initState.weekTotal ∧
     (processEvent exWindow initState evDecOld).monthTotal = initState.monthTotal ∧
     (processEvent exWindow initState evDecOld).workDaysInWeek = initState.workDaysInWeek ∧
     (processEvent exWindow initState evDecOld).workDaysInMonth = initState.workDaysInMonth) :=
  ⟨by decide, by decide, Or.inl (by decide), Or.inl (by decide),
   C3_outside_both exWindow initState evDecOld (utc 1765274400) (utc 1765278000)
     (by decide) rfl rfl (by decide) (Or.inl (by decide)) (Or.inl (by decide))⟩

/-- C4 (witness): the strict-bound theorem applied to an event starting
exactly at weekBegin of the example window. -/
theorem C4_witness :
    matchesTitle evOnBoundary.summary = true ∧
    (utc 1767571200).sec ≤ (utc 1767574800).sec ∧
    (utc 1767571200).sec = exWindow.weekBegin ∧
    ((processEvent exWindow initState evOnBoundary).weekTotal = initState.weekTotal ∧
     (processEvent exWindow initState evOnBoundary).workDaysInWeek = initState.workDaysInWeek) :=
  ⟨by decide, by decide, by decide,
   (C4_strict_bounds exWindow initState evOnBoundary (utc 1767571200)
       (utc 1767574800) (by decide) rfl rfl (by decide)
       (Or.inl (by decide))).2.2⟩

/-- C5 (witness): the dedup theorem applied to the standup and review of
the worked example (same Monday, both in the week window, ascending
order), from the initial state. -/
theorem C5_witness :
    dayOfMonth (utc 1767621600) = dayOfMonth (utc 1767603600) ∧
    inWindow exWindow.weekBegin exWindow.weekEnd (utc 1767603600) (utc 1767605400) = true ∧
    inWindow exWindow.weekBegin exWindow.weekEnd (utc 1767621600) (utc 1767625200) = true ∧
    (utc 1767603600).sec ≤ (utc 1767621600).sec ∧
    ((processEvent exWindow (processEvent exWindow initState evStandup) evReview).workDaysInWeek =
       (processEvent exWindow initState evStandup).workDaysInWeek ∧
     (processEvent exWindow initState evStandup).workDaysInWeek =
       initState.workDaysInWeek +
         (if dayOfMonth (utc 1767603600) = initState.today then 0 else 1)) :=
  ⟨by decide, by decide, by decide, by decide,
   C5_same_day_once exWindow initState evStandup evReview
     (utc 1767603600) (utc 1767605400) (utc 1767621600) (utc 1767625200)
     (by decide) rfl rfl (by decide) rfl rfl (by decide) (by decide)
     (by decide) (by decide)⟩

/-- C6 (witness): the title filter theorem applied to the Lunch event of
the worked example. -/
theorem C6_witness :
    matchesTitle evLunch.summary = false ∧
    ((processEvent exWindow initState evLunch).weekTotal = initState.weekTotal ∧
     (processEvent exWindow initState evLunch).monthTotal = initState.monthTotal ∧
     (processEvent exWindow initState evLunch).workDaysInWeek = initState.workDaysInWeek ∧
     (processEvent exWindow initState evLunch).workDaysInMonth = initState.workDaysInMonth ∧
     (processEvent exWindow initState evLunch).eventLines = initState.eventLines) :=
  ⟨by decide, C6_title_filter exWindow initState evLunch (by decide)⟩

set_option maxRecDepth 8000 in
/-- C8 (counterexample): a matching in-window event of one hour plus one
nanosecond has the in-range Duration 3600000000001 ns, but the binary64
value obtained by accumulating Hours() of that Duration into a zero
total differs from the algebraic difference 3600000000001/3600000000000
hours: Hours() and the accumulation round to 53 significand bits, and
the algebraic value, which has the odd factor 439453125 in its reduced
denominator, is not representable. -/
theorem C8_counterexample :
    matchesTitle evOneNs.summary = true ∧
    inWindow exWindow.weekBegin exWindow.weekEnd (utc 1767603600)
      { sec := 1767607200, nsec := 1, offset := 0 } = true ∧
    goSub { sec := 1767607200, nsec := 1, offset := 0 } (utc 1767603600) =
      3600000000001 ∧
    toQ (fl64add (roundF64 0 1) (goHours64 3600000000001)) ≠
      (3600000000001 : ℚ) / 3600000000000 := by
  refine ⟨by decide, by decide, by decide, ?_⟩
  intro hq
  have hv : f64val (fl64add (roundF64 0 1) (goHours64 3600000000001))
      3600000000001 3600000000000 = true :=
    (f64val_iff _ _ _ (by norm_num)).mpr hq
  have hf : f64val (fl64add (roundF64 0 1) (goHours64 3600000000001))
      3600000000001 3600000000000 = false := by decide
  rw [hf] at hv
  exact absurd hv (by decide)

/-- C9 (witness): after a December 9 event has set the tracker to 9, the
theorem applied to the in-window January 9 event shows both counters and
the tracker unchanged, although the two events are a month apart. -/
theorem C9_witness :
    matchesTitle evJan9.summary = true ∧
    dayOfMonth (utc 1767952800) = (aggregate exWindow [evDecOld]).today ∧
    ((processEvent exWindow (aggregate exWindow [evDecOld]) evJan9).workDaysInWeek =
       (aggregate exWindow [evDecOld]).workDaysInWeek ∧
     (processEvent exWindow (aggregate exWindow [evDecOld]) evJan9).workDaysInMonth =
       (aggregate exWindow [evDecOld]).workDaysInMonth ∧
     (processEvent exWindow (aggregate exWindow [evDecOld]) evJan9).today =
       (aggregate exWindow [evDecOld]).today) :=
  ⟨by decide, by decide,
   C9_day_of_month_only exWindow (aggregate exWindow [evDecOld]) evJan9
     (utc 1767952800) (by decide) rfl (by decide)⟩

/-- C10 (witness): the frame theorem applied to a non-matching event
with both timestamps unparseable: the state, parse-error count included,
is untouched. -/
theorem C10_witness :
    matchesTitle evPrivate.summary = false ∧
    processEvent exWindow initState evPrivate = initState :=
  ⟨by decide, C10_nonmatching_frame exWindow initState evPrivate (by decide)⟩
